import Mathlib

/-!
Shallow embedding of the search-and-aggregate routine of `src/main.py`
(`list_and_search_all_stores`) and verification of its specification.

The two external services the routine touches are modelled as explicit
oracle parameters:

* `listDataStores : String → Except String (List String)` stands for the
  directory service (`client.list_data_stores(parent=parent)`): given the
  parent resource path it either returns the list of data-store resource
  names (the `s.name` fields of the response) or raises an exception,
  modelled as `Except.error` carrying the exception text `str(e)`.
* `toolInit : String → Except String Unit` stands for the per-store search
  step of the loop body (the `VertexAiSearchTool(data_store_id=store_id)`
  construction, the only thing inside the per-store `try` that can raise):
  it either succeeds or raises with an exception text.

Exceptions become `Except.error`; string formatting (f-strings, `join`,
`split`) is translated literally.
-/

/-- Python `s.split(sep)[-1]` for a one-character separator, character by
character: `splitCharAux sep cs acc` splits `cs` at every occurrence of
`sep`, with `acc` holding the (reversed) characters of the current field. -/
def splitCharAux (sep : Char) : List Char → List Char → List (List Char)
  | [], acc => [acc.reverse]
  | x :: rest, acc =>
    if x = sep then acc.reverse :: splitCharAux sep rest []
    else splitCharAux sep rest (x :: acc)

/-- Translation of `s.name.split('/')[-1]` (line 33 of `src/main.py`): the
final `/`-separated segment of a resource name. Python `split` never returns
an empty list, so the `[-1]` index is total; the `""` default of `getLastD`
is never used. -/
def lastSegment (s : String) : String :=
  (((splitCharAux '/' s.data []).map List.asString).getLastD "")

/-- Translation of the parent path built on line 31 of `src/main.py`. -/
def parentPath (project_id location : String) : String :=
  "projects/" ++ project_id ++ "/locations/" ++ location ++
    "/collections/default_collection"

/-- Body of the per-store loop (lines 39-48 of `src/main.py`): construct the
search tool for `store_id`; on success the appended result is the simulated
snippet f-string, on an exception `e` the appended result is the inline
error f-string. -/
def searchStoreOutcome (toolInit : String → Except String Unit)
    (query store_id : String) : String :=
  match toolInit store_id with
  | Except.ok _ =>
      "Retrieved document from " ++ store_id ++ " related to '" ++ query ++ "'."
  | Except.error e =>
      "Error searching in " ++ store_id ++ ": " ++ e

/-- Translation of `list_and_search_all_stores` (lines 20-50 of
`src/main.py`). Step 1 lists the data stores under the parent path and maps
each resource name to its final segment; if listing raises `e` the function
returns the single fatal error string. Step 2 folds the per-store loop:
the outcome of each store id, in enumeration order. Step 3 is
`"\n\n".join(all_results)`. -/
def list_and_search_all_stores
    (listDataStores : String → Except String (List String))
    (toolInit : String → Except String Unit)
    (project_id query location : String) : String :=
  match listDataStores (parentPath project_id location) with
  | Except.error e => "Error: Could not list data stores. " ++ e
  | Except.ok response =>
      (String.intercalate "\n\n"
        ((response.map lastSegment).map (searchStoreOutcome toolInit query)))

/-- Spec-level join: outcomes concatenated in order, consecutive outcomes
separated by exactly one blank line (`"\n\n"`), nothing else added. -/
def joinBlank : List String → String
  | [] => ""
  | [s] => s
  | s1 :: s2 :: rest => s1 ++ "\n\n" ++ joinBlank (s2 :: rest)

/-- Blank-line splitting of a character list: fields are separated at each
leftmost occurrence of two consecutive newline characters, the semantics of
Python `text.split("\n\n")`. The accumulator holds the reversed characters
of the current field. -/
def splitBlankAux : List Char → List Char → List (List Char)
  | [], acc => [acc.reverse]
  | [c], acc => [(c :: acc).reverse]
  | c1 :: c2 :: rest, acc =>
    if c1 = '\n' ∧ c2 = '\n' then acc.reverse :: splitBlankAux rest []
    else splitBlankAux (c2 :: rest) (c1 :: acc)

/-- Splitting a string on blank-line separators (`"\n\n"`). -/
def splitBlank (s : String) : List String :=
  (splitBlankAux s.data []).map List.asString

/-- Test whether a character list contains two consecutive newlines. -/
def hasNN : List Char → Bool
  | [] => false
  | [_] => false
  | c1 :: c2 :: rest => if c1 = '\n' ∧ c2 = '\n' then true else hasNN (c2 :: rest)

theorem intercalate_go_eq :
    ∀ (l : List String) (acc : String),
      String.intercalate.go acc "\n\n" l = joinBlank (acc :: l) := by
  intro l
  induction l with
  | nil => intro acc; rfl
  | cons a as ih =>
      intro acc
      show String.intercalate.go (acc ++ "\n\n" ++ a) "\n\n" as = _
      rw [ih (acc ++ "\n\n" ++ a)]
      cases as with
      | nil => simp [joinBlank, String.append_assoc]
      | cons b bs => simp [joinBlank, String.append_assoc]

/-- Python `sep.join(l)` (Lean `String.intercalate`) agrees with the
spec-level join. -/
theorem intercalate_eq_joinBlank (l : List String) :
    String.intercalate "\n\n" l = joinBlank l := by
  cases l with
  | nil => rfl
  | cons a as =>
      show String.intercalate.go a "\n\n" as = _
      rw [intercalate_go_eq]

/-- Shape of the routine on a successful enumeration: the blank-line join of
the per-store outcomes of the final path segments, in enumeration order. -/
theorem agg_ok_eq_joinBlank
    (dir : String → Except String (List String))
    (tool : String → Except String Unit)
    (p q loc : String) (names : List String)
    (h : dir (parentPath p loc) = Except.ok names) :
    list_and_search_all_stores dir tool p q loc =
      joinBlank (names.map (fun n => searchStoreOutcome tool q (lastSegment n))) := by
  unfold list_and_search_all_stores
  rw [h]
  show String.intercalate "\n\n" ((names.map lastSegment).map (searchStoreOutcome tool q)) = _
  rw [intercalate_eq_joinBlank, List.map_map]
  rfl

/-- C1: if enumerating the data stores raises an exception `e`, the routine
returns the single descriptive error string and nothing else; the output is
moreover independent of the per-store search behaviour, so no per-index
search result and no partial enumeration result is used. -/
theorem c1_enumeration_failure_fatal
    (dir : String → Except String (List String))
    (tool tool2 : String → Except String Unit)
    (p q loc e : String)
    (h : dir (parentPath p loc) = Except.error e) :
    list_and_search_all_stores dir tool p q loc =
      "Error: Could not list data stores. " ++ e ∧
    list_and_search_all_stores dir tool p q loc =
      list_and_search_all_stores dir tool2 p q loc := by
  unfold list_and_search_all_stores
  rw [h]
  exact ⟨rfl, rfl⟩

theorem c1_enumeration_failure_fatal_witness :
    (fun _ : String =>
        (Except.error "permission denied" : Except String (List String)))
      (parentPath "p" "global") = Except.error "permission denied" ∧
    (list_and_search_all_stores (fun _ => Except.error "permission denied")
        (fun _ => Except.ok ()) "p" "q" "global" =
      "Error: Could not list data stores. permission denied" ∧
    list_and_search_all_stores (fun _ => Except.error "permission denied")
        (fun _ => Except.ok ()) "p" "q" "global" =
      list_and_search_all_stores (fun _ => Except.error "permission denied")
        (fun _ => Except.error "boom") "p" "q" "global") :=
  ⟨rfl, c1_enumeration_failure_fatal _ _ _ "p" "q" "global" "permission denied" rfl⟩

/-- C3: on a successful enumeration the returned string is exactly the
blank-line-separated concatenation of the per-index outcomes (successes and
inline errors), in enumeration order, with nothing else added. -/
theorem c3_aggregation_structure
    (dir : String → Except String (List String))
    (tool : String → Except String Unit)
    (p q loc : String) (names : List String)
    (h : dir (parentPath p loc) = Except.ok names) :
    list_and_search_all_stores dir tool p q loc =
      joinBlank (names.map (fun n => searchStoreOutcome tool q (lastSegment n))) :=
  agg_ok_eq_joinBlank dir tool p q loc names h

theorem c3_aggregation_structure_witness :
    (fun _ : String =>
        (Except.ok ["a/x", "b/y"] : Except String (List String)))
      (parentPath "p" "global") = Except.ok ["a/x", "b/y"] ∧
    list_and_search_all_stores (fun _ => Except.ok ["a/x", "b/y"])
        (fun _ => Except.ok ()) "p" "q" "global" =
      joinBlank (["a/x", "b/y"].map
        (fun n => searchStoreOutcome (fun _ => Except.ok ()) "q" (lastSegment n))) :=
  ⟨rfl, c3_aggregation_structure _ _ "p" "q" "global" ["a/x", "b/y"] rfl⟩

/-- C4: a successful enumeration that yields no data stores makes the
routine return the empty string, not an error. -/
theorem c4_empty_enumeration
    (dir : String → Except String (List String))
    (tool : String → Except String Unit)
    (p q loc : String)
    (h : dir (parentPath p loc) = Except.ok []) :
    list_and_search_all_stores dir tool p q loc = "" := by
  unfold list_and_search_all_stores
  rw [h]
  rfl

theorem c4_empty_enumeration_witness :
    (fun _ : String => (Except.ok [] : Except String (List String)))
      (parentPath "p" "global") = Except.ok [] ∧
    list_and_search_all_stores (fun _ => Except.ok [])
        (fun _ => Except.ok ()) "p" "q" "global" = "" :=
  ⟨rfl, c4_empty_enumeration _ _ "p" "q" "global" rfl⟩

/-- C2: if enumeration yields the stores `l1 ++ b :: l2`, the search for `b`
raises `e`, and the searches for every store of `l1` and `l2` succeed, then
the aggregated output is the blank-line join of the snippets of `l1`, the
inline error for `b` (which mentions the identifier of `b`), and the
snippets of `l2`, in exactly that order: a per-index failure never aborts
the loop and never drops or reorders the outcomes of other stores. -/
theorem c2_per_store_failure_isolated
    (dir : String → Except String (List String))
    (tool : String → Except String Unit)
    (p q loc e : String) (l1 l2 : List String) (b : String)
    (h : dir (parentPath p loc) = Except.ok (l1 ++ b :: l2))
    (h1 : ∀ n ∈ l1, tool (lastSegment n) = Except.ok ())
    (hb : tool (lastSegment b) = Except.error e)
    (h2 : ∀ n ∈ l2, tool (lastSegment n) = Except.ok ()) :
    list_and_search_all_stores dir tool p q loc =
      joinBlank
        ((l1.map (fun n => "Retrieved document from " ++ lastSegment n ++
            " related to '" ++ q ++ "'.")) ++
          ("Error searching in " ++ lastSegment b ++ ": " ++ e) ::
          (l2.map (fun n => "Retrieved document from " ++ lastSegment n ++
            " related to '" ++ q ++ "'."))) ∧
    (∃ u v, "Error searching in " ++ lastSegment b ++ ": " ++ e =
      u ++ lastSegment b ++ v) := by
  constructor
  · rw [agg_ok_eq_joinBlank dir tool p q loc (l1 ++ b :: l2) h]
    rw [List.map_append, List.map_cons]
    have e1 : l1.map (fun n => searchStoreOutcome tool q (lastSegment n)) =
        l1.map (fun n => "Retrieved document from " ++ lastSegment n ++
          " related to '" ++ q ++ "'.") := by
      apply List.map_congr_left
      intro n hn
      unfold searchStoreOutcome
      rw [h1 n hn]
    have e2 : l2.map (fun n => searchStoreOutcome tool q (lastSegment n)) =
        l2.map (fun n => "Retrieved document from " ++ lastSegment n ++
          " related to '" ++ q ++ "'.") := by
      apply List.map_congr_left
      intro n hn
      unfold searchStoreOutcome
      rw [h2 n hn]
    have eb : searchStoreOutcome tool q (lastSegment b) =
        "Error searching in " ++ lastSegment b ++ ": " ++ e := by
      unfold searchStoreOutcome
      rw [hb]
    rw [e1, e2, eb]
  · exact ⟨"Error searching in ", ": " ++ e, by rw [String.append_assoc]⟩

theorem c2_per_store_failure_isolated_witness :
    (fun _ : String =>
        (Except.ok ["A", "B", "C"] : Except String (List String)))
      (parentPath "p" "global") = Except.ok (["A"] ++ "B" :: ["C"]) ∧
    (∀ n ∈ ["A"],
      (fun s => if s = "B" then Except.error "boom" else Except.ok ())
        (lastSegment n) = Except.ok ()) ∧
    (fun s => if s = "B" then Except.error "boom" else Except.ok ())
      (lastSegment "B") = Except.error "boom" ∧
    (∀ n ∈ ["C"],
      (fun s => if s = "B" then Except.error "boom" else Except.ok ())
        (lastSegment n) = Except.ok ()) ∧
    (list_and_search_all_stores (fun _ => Except.ok ["A", "B", "C"])
        (fun s => if s = "B" then Except.error "boom" else Except.ok ())
        "p" "q" "global" =
      joinBlank
        ((["A"].map (fun n => "Retrieved document from " ++ lastSegment n ++
            " related to '" ++ "q" ++ "'.")) ++
          ("Error searching in " ++ lastSegment "B" ++ ": " ++ "boom") ::
          (["C"].map (fun n => "Retrieved document from " ++ lastSegment n ++
            " related to '" ++ "q" ++ "'."))) ∧
      ∃ u v, "Error searching in " ++ lastSegment "B" ++ ": " ++ "boom" =
        u ++ lastSegment "B" ++ v) :=
  ⟨rfl,
    fun n hn => by rw [List.mem_singleton] at hn; subst hn; rfl,
    rfl,
    fun n hn => by rw [List.mem_singleton] at hn; subst hn; rfl,
    c2_per_store_failure_isolated _ _ "p" "q" "global" "boom" ["A"] ["C"] "B"
      rfl
      (fun n hn => by rw [List.mem_singleton] at hn; subst hn; rfl)
      rfl
      (fun n hn => by rw [List.mem_singleton] at hn; subst hn; rfl)⟩

/-- C6: the routine is stateless and deterministic. Two calls that agree on
their inputs and receive identical responses from the directory service and
from the per-store search step produce identical aggregated output. -/
theorem c6_stateless_deterministic
    (dir1 dir2 : String → Except String (List String))
    (tool1 tool2 : String → Except String Unit)
    (p q loc : String)
    (hdir : dir1 (parentPath p loc) = dir2 (parentPath p loc))
    (htool : ∀ s, tool1 s = tool2 s) :
    list_and_search_all_stores dir1 tool1 p q loc =
      list_and_search_all_stores dir2 tool2 p q loc := by
  unfold list_and_search_all_stores
  rw [hdir]
  cases dir2 (parentPath p loc) with
  | error e => rfl
  | ok names =>
      show String.intercalate "\n\n" _ = String.intercalate "\n\n" _
      congr 1
      apply List.map_congr_left
      intro n _
      unfold searchStoreOutcome
      rw [htool n]

theorem c6_stateless_deterministic_witness :
    (fun _ : String => (Except.ok ["a/x"] : Except String (List String)))
      (parentPath "p" "global") =
      (fun _ : String => (Except.ok ["a/x"] : Except String (List String)))
        (parentPath "p" "global") ∧
    (∀ _s : String, (Except.ok () : Except String Unit) = Except.ok ()) ∧
    list_and_search_all_stores (fun _ => Except.ok ["a/x"])
        (fun _ => Except.ok ()) "p" "q" "global" =
      list_and_search_all_stores (fun _ => Except.ok ["a/x"])
        (fun _ => Except.ok ()) "p" "q" "global" :=
  ⟨rfl, fun _ => rfl,
    c6_stateless_deterministic _ _ _ _ "p" "q" "global" rfl (fun _ => rfl)⟩

/-- C7: on the success path the per-store result is exactly the synthetic
placeholder string built from the store id and the query, and it is the same
for any two search behaviours that succeed on that store: it does not depend
on any response of the external search service. -/
theorem c7_success_placeholder
    (tool tool2 : String → Except String Unit) (q sid : String)
    (h : tool sid = Except.ok ())
    (h2 : tool2 sid = Except.ok ()) :
    searchStoreOutcome tool q sid =
      "Retrieved document from " ++ sid ++ " related to '" ++ q ++ "'." ∧
    searchStoreOutcome tool q sid = searchStoreOutcome tool2 q sid := by
  unfold searchStoreOutcome
  rw [h, h2]
  exact ⟨rfl, rfl⟩

theorem c7_success_placeholder_witness :
    (fun _ : String => (Except.ok () : Except String Unit)) "ds1" =
      Except.ok () ∧
    (fun s : String =>
        if s = "other" then (Except.error "x" : Except String Unit)
        else Except.ok ()) "ds1" = Except.ok () ∧
    (searchStoreOutcome (fun _ => Except.ok ()) "q" "ds1" =
      "Retrieved document from " ++ "ds1" ++ " related to '" ++ "q" ++ "'." ∧
    searchStoreOutcome (fun _ => Except.ok ()) "q" "ds1" =
      searchStoreOutcome
        (fun s => if s = "other" then Except.error "x" else Except.ok ())
        "q" "ds1") :=
  ⟨rfl, rfl, c7_success_placeholder _ _ "q" "ds1" rfl rfl⟩

/-- C8: no deduplication takes place. On a successful enumeration the list
of per-index outcomes joined into the output has exactly one entry per
enumerated store, in order, so stores with identical outcome strings keep
their multiplicity. -/
theorem c8_no_deduplication
    (dir : String → Except String (List String))
    (tool : String → Except String Unit)
    (p q loc : String) (names : List String)
    (h : dir (parentPath p loc) = Except.ok names) :
    ∃ outs : List String,
      list_and_search_all_stores dir tool p q loc =
        String.intercalate "\n\n" outs ∧
      outs.length = names.length ∧
      ∀ i (hi : i < names.length) (hi2 : i < outs.length),
        outs.get ⟨i, hi2⟩ =
          searchStoreOutcome tool q (lastSegment (names.get ⟨i, hi⟩)) := by
  refine ⟨(names.map lastSegment).map (searchStoreOutcome tool q), ?_, ?_, ?_⟩
  · unfold list_and_search_all_stores
    rw [h]
  · simp
  · intro i hi hi2
    simp [List.get_eq_getElem, List.getElem_map]

theorem c8_no_deduplication_witness :
    (fun _ : String =>
        (Except.ok ["a/x", "b/x"] : Except String (List String)))
      (parentPath "p" "global") = Except.ok ["a/x", "b/x"] ∧
    ∃ outs : List String,
      list_and_search_all_stores (fun _ => Except.ok ["a/x", "b/x"])
          (fun _ => Except.ok ()) "p" "q" "global" =
        String.intercalate "\n\n" outs ∧
      outs.length = (["a/x", "b/x"] : List String).length ∧
      ∀ i (hi : i < (["a/x", "b/x"] : List String).length)
          (hi2 : i < outs.length),
        outs.get ⟨i, hi2⟩ =
          searchStoreOutcome (fun _ => Except.ok ()) "q"
            (lastSegment ((["a/x", "b/x"] : List String).get ⟨i, hi⟩)) :=
  ⟨rfl, c8_no_deduplication _ _ "p" "q" "global" ["a/x", "b/x"] rfl⟩

/-- C9: totality at the public interface. For every input and every
behaviour of the external enumeration and per-store search steps, the
routine returns a string of one of exactly two shapes: the fatal
enumeration-error string, or the blank-line join of per-store outcomes in
which each per-store failure appears as an inline error string. No
exception propagates out. -/
theorem c9_total_no_exception
    (dir : String → Except String (List String))
    (tool : String → Except String Unit)
    (p q loc : String) :
    (∃ e, dir (parentPath p loc) = Except.error e ∧
      list_and_search_all_stores dir tool p q loc =
        "Error: Could not list data stores. " ++ e) ∨
    (∃ names, dir (parentPath p loc) = Except.ok names ∧
      list_and_search_all_stores dir tool p q loc =
        String.intercalate "\n\n"
          (names.map (fun n => searchStoreOutcome tool q (lastSegment n)))) := by
  cases hd : dir (parentPath p loc) with
  | error e =>
      left
      refine ⟨e, rfl, ?_⟩
      unfold list_and_search_all_stores
      rw [hd]
  | ok names =>
      right
      refine ⟨names, rfl, ?_⟩
      unfold list_and_search_all_stores
      rw [hd]
      show String.intercalate "\n\n"
        ((names.map lastSegment).map (searchStoreOutcome tool q)) = _
      rw [List.map_map]
      rfl

/-- C10: the identifier used for the search, for the snippet and for the
inline error of each store is the final slash-separated segment of the
resource name the directory service returned, not the full resource name:
the output is determined by the `lastSegment` images of the returned names,
and `lastSegment` returns the final segment of a resource path. -/
theorem c10_last_path_segment
    (dir : String → Except String (List String))
    (tool : String → Except String Unit)
    (p q loc : String) (names : List String)
    (h : dir (parentPath p loc) = Except.ok names) :
    list_and_search_all_stores dir tool p q loc =
      String.intercalate "\n\n"
        (names.map (fun n => searchStoreOutcome tool q (lastSegment n))) ∧
    lastSegment "projects/pr/locations/gl/collections/dc/dataStores/ds1" =
      "ds1" ∧
    searchStoreOutcome tool q
        (lastSegment "projects/pr/locations/gl/collections/dc/dataStores/ds1") =
      searchStoreOutcome tool q "ds1" := by
  refine ⟨?_, by decide, ?_⟩
  · unfold list_and_search_all_stores
    rw [h]
    show String.intercalate "\n\n"
      ((names.map lastSegment).map (searchStoreOutcome tool q)) = _
    rw [List.map_map]
    rfl
  · have hseg :
        lastSegment "projects/pr/locations/gl/collections/dc/dataStores/ds1" =
          "ds1" := by decide
    rw [hseg]

theorem c10_last_path_segment_witness :
    (fun _ : String =>
        (Except.ok ["projects/pr/locations/gl/collections/dc/dataStores/ds1"] :
          Except String (List String)))
      (parentPath "pr" "gl") =
      Except.ok ["projects/pr/locations/gl/collections/dc/dataStores/ds1"] ∧
    (list_and_search_all_stores
        (fun _ =>
          Except.ok ["projects/pr/locations/gl/collections/dc/dataStores/ds1"])
        (fun _ => Except.ok ()) "pr" "q" "gl" =
      String.intercalate "\n\n"
        (["projects/pr/locations/gl/collections/dc/dataStores/ds1"].map
          (fun n => searchStoreOutcome (fun _ => Except.ok ()) "q"
            (lastSegment n))) ∧
    lastSegment "projects/pr/locations/gl/collections/dc/dataStores/ds1" =
      "ds1" ∧
    searchStoreOutcome (fun _ => Except.ok ()) "q"
        (lastSegment "projects/pr/locations/gl/collections/dc/dataStores/ds1") =
      searchStoreOutcome (fun _ => Except.ok ()) "q" "ds1") :=
  ⟨rfl, c10_last_path_segment _ _ "pr" "q" "gl"
    ["projects/pr/locations/gl/collections/dc/dataStores/ds1"] rfl⟩

theorem asString_data (s : String) : s.data.asString = s := rfl

theorem splitBlankAux_cons2 (c1 c2 : Char) (rest acc : List Char) :
    splitBlankAux (c1 :: c2 :: rest) acc =
      if c1 = '\n' ∧ c2 = '\n' then acc.reverse :: splitBlankAux rest []
      else splitBlankAux (c2 :: rest) (c1 :: acc) := rfl

theorem hasNN_cons2 (c1 c2 : Char) (rest : List Char) :
    hasNN (c1 :: c2 :: rest) =
      if c1 = '\n' ∧ c2 = '\n' then true else hasNN (c2 :: rest) := rfl

theorem splitBlankAux_no_sep :
    ∀ (l : List Char), hasNN l = false →
      ∀ acc, splitBlankAux l acc = [acc.reverse ++ l] := by
  intro l
  induction l using hasNN.induct with
  | case1 => intro _ acc; simp [splitBlankAux]
  | case2 c => intro _ acc; simp [splitBlankAux]
  | case3 c1 c2 rest hc =>
      intro h _
      rw [hasNN_cons2, if_pos hc] at h
      exact absurd h (by simp)
  | case4 c1 c2 rest hc ih =>
      intro h acc
      rw [hasNN_cons2, if_neg hc] at h
      rw [splitBlankAux_cons2, if_neg hc, ih h (c1 :: acc)]
      simp

theorem splitBlankAux_sep :
    ∀ (l : List Char), hasNN l = false → l.getLast? ≠ some '\n' →
      ∀ acc rest, splitBlankAux (l ++ '\n' :: '\n' :: rest) acc =
        (acc.reverse ++ l) :: splitBlankAux rest [] := by
  intro l
  induction l using hasNN.induct with
  | case1 =>
      intro _ _ acc rest
      show splitBlankAux ('\n' :: '\n' :: rest) acc = _
      rw [splitBlankAux_cons2, if_pos ⟨rfl, rfl⟩]
      simp
  | case2 c =>
      intro _ hlast acc rest
      have hc : c ≠ '\n' := by
        intro hc; rw [hc] at hlast; exact hlast rfl
      show splitBlankAux (c :: '\n' :: '\n' :: rest) acc = _
      rw [splitBlankAux_cons2, if_neg (by intro hcc; exact hc hcc.1)]
      show splitBlankAux ('\n' :: '\n' :: rest) (c :: acc) = _
      rw [splitBlankAux_cons2, if_pos ⟨rfl, rfl⟩]
      simp
  | case3 c1 c2 rest2 hc =>
      intro h _ _ _
      rw [hasNN_cons2, if_pos hc] at h
      exact absurd h (by simp)
  | case4 c1 c2 rest2 hc ih =>
      intro h hlast acc rest
      rw [hasNN_cons2, if_neg hc] at h
      have hlast2 : (c2 :: rest2).getLast? ≠ some '\n' := by
        rwa [List.getLast?_cons_cons] at hlast
      show splitBlankAux (c1 :: c2 :: (rest2 ++ '\n' :: '\n' :: rest)) acc = _
      rw [splitBlankAux_cons2, if_neg hc]
      have hstep := ih h hlast2 (c1 :: acc) rest
      rw [List.cons_append] at hstep
      rw [hstep]
      simp

theorem splitBlank_joinBlank :
    ∀ (segs : List String), segs ≠ [] →
      (∀ s ∈ segs, hasNN s.data = false ∧ s.data.getLast? ≠ some '\n') →
      splitBlank (joinBlank segs) = segs := by
  intro segs
  induction segs with
  | nil => intro h; exact absurd rfl h
  | cons s rest ih =>
      intro _ hgood
      cases rest with
      | nil =>
          show splitBlank (joinBlank [s]) = [s]
          unfold joinBlank splitBlank
          rw [splitBlankAux_no_sep s.data (hgood s (by simp)).1 []]
          simp [asString_data]
      | cons s2 rest2 =>
          show splitBlank (joinBlank (s :: s2 :: rest2)) = _
          unfold splitBlank
          have hd : (joinBlank (s :: s2 :: rest2)).data =
              s.data ++ '\n' :: '\n' :: (joinBlank (s2 :: rest2)).data := by
            show (s ++ "\n\n" ++ joinBlank (s2 :: rest2)).data = _
            simp [String.data_append]
          rw [hd]
          rw [splitBlankAux_sep s.data (hgood s (by simp)).1
            (hgood s (by simp)).2 [] (joinBlank (s2 :: rest2)).data]
          have ih2 := ih (by simp) (fun t ht => hgood t (by simp [ht]))
          unfold splitBlank at ih2
          simp only [List.map_cons, List.reverse_nil, List.nil_append,
            asString_data]
          rw [ih2]

theorem head?_append_some (a y : List Char) (c : Char) (h : a.head? = some c) :
    (a ++ y).head? = some c := by
  cases a with
  | nil => simp at h
  | cons x t =>
      simp only [List.head?_cons, Option.some.injEq] at h
      simp [h]

theorem getLast?_append_some (a y : List Char) (c : Char)
    (h : y.getLast? = some c) : (a ++ y).getLast? = some c := by
  rw [List.getLast?_append, h]
  rfl

theorem hasNN_append :
    ∀ (a : List Char), hasNN a = false →
      ∀ b : List Char, hasNN b = false →
        (a.getLast? ≠ some '\n' ∨ b.head? ≠ some '\n') →
        hasNN (a ++ b) = false := by
  intro a
  induction a using hasNN.induct with
  | case1 => intro _ b hb _; simpa using hb
  | case2 c =>
      intro _ b hb hmid
      show hasNN (c :: b) = false
      cases b with
      | nil => rfl
      | cons d b2 =>
          rw [hasNN_cons2]
          rw [if_neg ?hcond]
          · exact hb
          case hcond =>
            intro hcc
            cases hmid with
            | inl hl => exact hl (by rw [hcc.1]; rfl)
            | inr hr => exact hr (by rw [hcc.2]; rfl)
  | case3 c1 c2 rest hc =>
      intro h _ _ _
      rw [hasNN_cons2, if_pos hc] at h
      exact absurd h (by simp)
  | case4 c1 c2 rest hc ih =>
      intro h b hb hmid
      rw [hasNN_cons2, if_neg hc] at h
      have hmid2 : (c2 :: rest).getLast? ≠ some '\n' ∨ b.head? ≠ some '\n' := by
        cases hmid with
        | inl hl => exact Or.inl (by rwa [List.getLast?_cons_cons] at hl)
        | inr hr => exact Or.inr hr
      show hasNN (c1 :: c2 :: (rest ++ b)) = false
      rw [hasNN_cons2, if_neg hc]
      have := ih h b hb hmid2
      rwa [List.cons_append] at this

theorem snippet_data (sid q : String) :
    ("Retrieved document from " ++ sid ++ " related to '" ++ q ++ "'.").data =
      "Retrieved document from ".data ++ (sid.data ++
        (" related to '".data ++ (q.data ++ "'.".data))) := by
  simp only [String.data_append, List.append_assoc]

theorem snippet_good (sid q : String) (hsid : hasNN sid.data = false)
    (hq : hasNN q.data = false) :
    hasNN ("Retrieved document from " ++ sid ++ " related to '" ++ q ++
        "'.").data = false ∧
    ("Retrieved document from " ++ sid ++ " related to '" ++ q ++
        "'.").data.getLast? ≠ some '\n' := by
  have h1 : hasNN (q.data ++ "'.".data) = false :=
    hasNN_append q.data hq "'.".data (by decide) (Or.inr (by decide))
  have h2 : hasNN (" related to '".data ++ (q.data ++ "'.".data)) = false :=
    hasNN_append " related to '".data (by decide) _ h1 (Or.inl (by decide))
  have h3 : hasNN (sid.data ++
      (" related to '".data ++ (q.data ++ "'.".data))) = false := by
    apply hasNN_append sid.data hsid _ h2
    right
    rw [head?_append_some " related to '".data _ ' ' (by decide)]
    decide
  have h4 : hasNN ("Retrieved document from ".data ++ (sid.data ++
      (" related to '".data ++ (q.data ++ "'.".data)))) = false := by
    apply hasNN_append "Retrieved document from ".data (by decide) _ h3
    left
    decide
  have g1 : (q.data ++ "'.".data).getLast? = some '.' :=
    getLast?_append_some _ _ '.' (by decide)
  have g2 : (" related to '".data ++ (q.data ++ "'.".data)).getLast? =
      some '.' := getLast?_append_some _ _ '.' g1
  have g3 : (sid.data ++ (" related to '".data ++
      (q.data ++ "'.".data))).getLast? = some '.' :=
    getLast?_append_some _ _ '.' g2
  have g4 : ("Retrieved document from ".data ++ (sid.data ++
      (" related to '".data ++ (q.data ++ "'.".data)))).getLast? = some '.' :=
    getLast?_append_some _ _ '.' g3
  rw [snippet_data]
  exact ⟨h4, by rw [g4]; decide⟩

theorem snippet_ne_empty (sid q : String) :
    ("Retrieved document from " ++ sid ++ " related to '" ++ q ++ "'.") ≠
      "" := by
  intro heq
  have h2 := congrArg String.data heq
  rw [snippet_data] at h2
  rcases List.append_eq_nil.mp h2 with ⟨ha, _⟩
  exact absurd ha (by decide)

/-- C5 (amended): with every search succeeding, and provided neither the
query nor any derived store identifier contains two consecutive newline
characters, splitting the aggregated output on blank lines and keeping
the non-empty segments yields exactly one segment per enumerated store,
in enumeration order, each being that store's snippet. -/
theorem c5_all_success_segments
    (dir : String → Except String (List String))
    (tool : String → Except String Unit)
    (p q loc : String) (names : List String)
    (h : dir (parentPath p loc) = Except.ok names)
    (hok : ∀ n ∈ names, tool (lastSegment n) = Except.ok ())
    (hq : hasNN q.data = false)
    (hnames : ∀ n ∈ names, hasNN (lastSegment n).data = false) :
    (splitBlank (list_and_search_all_stores dir tool p q loc)).filter
        (fun s => !(s == "")) =
      names.map (fun n => "Retrieved document from " ++ lastSegment n ++
        " related to '" ++ q ++ "'.") ∧
    ((splitBlank (list_and_search_all_stores dir tool p q loc)).filter
        (fun s => !(s == ""))).length = names.length := by
  have hsegs : names.map (fun n => searchStoreOutcome tool q (lastSegment n)) =
      names.map (fun n => "Retrieved document from " ++ lastSegment n ++
        " related to '" ++ q ++ "'.") := by
    apply List.map_congr_left
    intro n hn
    unfold searchStoreOutcome
    rw [hok n hn]
  have hagg : list_and_search_all_stores dir tool p q loc =
      joinBlank (names.map (fun n => "Retrieved document from " ++
        lastSegment n ++ " related to '" ++ q ++ "'.")) := by
    rw [agg_ok_eq_joinBlank dir tool p q loc names h, hsegs]
  have hmain : (splitBlank (list_and_search_all_stores dir tool p q loc)).filter
      (fun s => !(s == "")) =
      names.map (fun n => "Retrieved document from " ++ lastSegment n ++
        " related to '" ++ q ++ "'.") := by
    rw [hagg]
    cases names with
    | nil => simp only [List.map_nil]; decide
    | cons n0 rest =>
        have hgood : ∀ s ∈ (n0 :: rest).map
            (fun n => "Retrieved document from " ++ lastSegment n ++
              " related to '" ++ q ++ "'."),
            hasNN s.data = false ∧ s.data.getLast? ≠ some '\n' := by
          intro s hs
          rw [List.mem_map] at hs
          obtain ⟨n, hn, rfl⟩ := hs
          exact snippet_good (lastSegment n) q (hnames n hn) hq
        rw [splitBlank_joinBlank _ (by simp) hgood]
        rw [List.filter_eq_self]
        intro s hs
        rw [List.mem_map] at hs
        obtain ⟨n, _, rfl⟩ := hs
        simpa using snippet_ne_empty (lastSegment n) q
  exact ⟨hmain, by rw [hmain]; simp⟩

theorem c5_all_success_segments_witness :
    (fun _ : String => (Except.ok ["a/x"] : Except String (List String)))
      (parentPath "p" "global") = Except.ok ["a/x"] ∧
    (∀ n ∈ ["a/x"],
      (fun _ : String => (Except.ok () : Except String Unit)) (lastSegment n) =
        Except.ok ()) ∧
    hasNN ("q" : String).data = false ∧
    (∀ n ∈ ["a/x"], hasNN (lastSegment n).data = false) ∧
    ((splitBlank (list_and_search_all_stores (fun _ => Except.ok ["a/x"])
          (fun _ => Except.ok ()) "p" "q" "global")).filter
        (fun s => !(s == "")) =
      ["a/x"].map (fun n => "Retrieved document from " ++ lastSegment n ++
        " related to '" ++ "q" ++ "'.") ∧
    ((splitBlank (list_and_search_all_stores (fun _ => Except.ok ["a/x"])
          (fun _ => Except.ok ()) "p" "q" "global")).filter
        (fun s => !(s == ""))).length = (["a/x"] : List String).length) :=
  ⟨rfl,
    fun _ _ => rfl,
    by decide,
    by decide,
    c5_all_success_segments _ _ "p" "q" "global" ["a/x"] rfl
      (fun _ _ => rfl) (by decide) (by decide)⟩

/-- C5 counterexample: one store is enumerated and its search succeeds, so
N = 1, yet for the query containing a blank line the aggregated output
splits into two non-empty blank-line segments, not one. The claim as
stated, quantified over every query, is therefore false. -/
theorem c5_counterexample :
    ¬ (((splitBlank (list_and_search_all_stores (fun _ => Except.ok ["s"])
          (fun _ => Except.ok ()) "p" "x\n\ny" "global")).filter
        (fun s => !(s == ""))).length = 1) := by decide
